import Mathlib

/-!
# Verification of the regression library (`regression.py`)

Shallow embedding of the repository's single source file `src/regression.py`
(OLS fitting helpers, prediction, growth-rate reporting and the
slope-comparison t-test), together with theorems settling the spec claims.

Modelling conventions:

* A pandas `DataFrame` is a list of rows; each row carries its index label
  (pandas preserves labels through `dropna` and `.loc`), the value of the
  `System` column (an entity identifier, modelled as `Nat`), and an
  association list from column names to `Option ℚ` values (`none` = NaN).
* Float arithmetic is idealised as real arithmetic (`ℝ`); data values are
  rationals so that the dataframe layer stays decidable.
* The external OLS solver (`sm.OLS(...).fit()` / `smf.ols(...)`) and the
  Student-t CDF (`scipy.stats.t.cdf`) are, per the spec's non-goals (§1, §6),
  external collaborators: the embedding is parameterised by a solver
  `SolverQ` returning coefficients and standard errors, and by
  `tcdf : ℤ → ℝ → ℝ`.  A concrete instantiation `olsSimple` (the closed-form
  normal-equations solution for an intercept-plus-one-feature design) is
  provided for concrete evaluations.
* `Series & Series` in pandas aligns the two boolean series on their index
  labels and treats a label missing on either side as `False`; `.loc[mask]`
  selects a frame's own rows whose label the mask sends to `True`.  This is
  embedded by `commonMask` / `locMask` below.
* Exceptions are modelled with `Except`: the only raises reachable in the
  source are the `KeyError` from `dropna(subset=...)` / column selection on a
  missing column and the `ValueError` of `get_predictions`.
-/

namespace BioReg

/-- One dataframe row: pandas index label, the `System` entity identifier,
and the named numeric columns (`none` models NaN). -/
structure Row where
  label : ℕ
  sys : ℕ
  vals : List (String × Option ℚ)
  deriving DecidableEq, Repr

/-- A pandas dataframe: column names plus rows (in frame order). -/
structure DataFrame where
  cols : List String
  rows : List Row
  deriving DecidableEq, Repr

/-- Value of column `c` in row `r` (`none` if NaN or absent). -/
def getVal (r : Row) (c : String) : Option ℚ :=
  (r.vals.lookup c).join

/-- `df.dropna(subset=cs)`: keep the rows with no NaN among columns `cs`.
(The source's `dropna` also raises `KeyError` on a missing column; that check
is performed by the callers below before invoking this pure filter.) -/
def dropnaF (df : DataFrame) (cs : List String) : DataFrame :=
  ⟨df.cols, df.rows.filter (fun r => cs.all (fun c => (getVal r c).isSome))⟩

/-- Label-based row lookup, as used by pandas index alignment. -/
def lookupRow (df : DataFrame) (l : ℕ) : Option Row :=
  df.rows.find? (fun r => r.label == l)

/-- `data1['System'].isin(data2['System']) & data2['System'].isin(data1['System'])`
(source line 91).  The two boolean series are indexed by the two frames'
labels; `&` aligns them on labels and treats a missing label as `False`, so
the combined mask holds at label `l` iff both frames have a row labelled `l`,
the `System` of frame 1's row at `l` occurs among frame 2's `System` values,
and the `System` of frame 2's row at `l` occurs among frame 1's values. -/
def commonMask (d1 d2 : DataFrame) (l : ℕ) : Bool :=
  match lookupRow d1 l, lookupRow d2 l with
  | some r1, some r2 =>
      d2.rows.any (fun q => q.sys == r1.sys) && d1.rows.any (fun q => q.sys == r2.sys)
  | _, _ => false

/-- `df.loc[mask]`: the frame's own rows whose label the mask maps to `True`. -/
def locMask (df : DataFrame) (mask : ℕ → Bool) : DataFrame :=
  ⟨df.cols, df.rows.filter (fun r => mask r.label)⟩

/-- `df[features].to_numpy()`: the feature matrix, one list per row.
(After a `dropna` on the features the `getD 0` default is never used.) -/
def featMatrix (df : DataFrame) (fs : List String) : List (List ℚ) :=
  df.rows.map (fun r => fs.map (fun c => (getVal r c).getD 0))

/-- `np.ptp(column) == 0` test used by `sm.add_constant`: does the matrix
have a column that is constant across all rows? (`false` on an empty
matrix.) -/
def hasConstCol : List (List ℚ) → Bool
  | [] => false
  | r0 :: rest =>
      (List.range r0.length).any (fun j => rest.all (fun r => r.getD j 0 == r0.getD j 0))

/-- `sm.add_constant(X)` with its default `has_constant='skip'` behaviour:
prepend a column of ones unless some column is already constant. -/
def add_constant (X : List (List ℚ)) : List (List ℚ) :=
  if hasConstCol X then X else X.map (fun r => 1 :: r)

/-- `df[target].to_numpy()` as rationals (the `getD 0` default is never used
after a `dropna` on the target). -/
def targetVecQ (df : DataFrame) (t : String) : List ℚ :=
  df.rows.map (fun r => (getVal r t).getD 0)

/-- `df[target].to_numpy()` coerced to reals. -/
noncomputable def targetVecR (df : DataFrame) (t : String) : List ℝ :=
  (targetVecQ df t).map (fun q => (q : ℝ))

/-- `np.log10` applied to one value when the `logy` flag is set. -/
noncomputable def logTrV (ly : Bool) (x : ℝ) : ℝ :=
  if ly then Real.logb 10 x else x

/-- `y = np.log10(y) if logy else y` on a vector. -/
noncomputable def logTr (ly : Bool) (y : List ℝ) : List ℝ :=
  if ly then y.map (Real.logb 10) else y

/-- Elementwise difference of two numpy vectors. -/
def listSub (a b : List ℝ) : List ℝ :=
  List.zipWith (fun x y => x - y) a b

/-- Linear predictor: a design row (rationals) dotted with coefficients. -/
noncomputable def dotQR (params : List ℝ) (xrow : List ℚ) : ℝ :=
  (List.zipWith (fun p q => p * (q : ℝ)) params xrow).sum

/-- Mean of a numpy vector. -/
noncomputable def meanR (l : List ℝ) : ℝ := l.sum / l.length

/-- The vector recentred at its mean. -/
noncomputable def centeredR (l : List ℝ) : List ℝ := l.map (fun x => x - meanR l)

/-- Sum of pairwise products. -/
noncomputable def sdot (a b : List ℝ) : ℝ := (List.zipWith (fun x y => x * y) a b).sum

/-- `np.corrcoef(u, v)[0, 1]`: the Pearson correlation coefficient (the
`1/(n-1)` normalisations of the covariances cancel). -/
noncomputable def corrcoef (u v : List ℝ) : ℝ :=
  sdot (centeredR u) (centeredR v) /
    Real.sqrt (sdot (centeredR u) (centeredR u) * sdot (centeredR v) (centeredR v))

/-- Result of the external OLS solver: coefficient vector (`params`, the
intercept first when the design carries a constant column) and per-coefficient
standard errors (`bse`). -/
structure OLSFit where
  params : List ℝ
  bse : List ℝ

/-- The external linear-regression solver of spec §6, fitting a design matrix
(rows already carrying their constant column) against a target vector. -/
abbrev SolverQ := List (List ℚ) → List ℝ → OLSFit

/-- Error taxonomy reachable from the embedded code: `missingColumn` models
the `KeyError` of `dropna(subset=...)`/column selection, `missingFeature`
models the `ValueError` raised by `get_predictions` (the spec's
`MissingFeatureError`). -/
inductive RegError where
  | missingColumn : List String → RegError
  | missingFeature : List String → RegError
  deriving DecidableEq, Repr

/-- Everything `regression_slope_t_test` computes and reports. -/
structure TTestResult where
  b1 : ℝ
  SE1 : ℝ
  b2 : ℝ
  SE2 : ℝ
  rho : ℝ
  t_stat : ℝ
  df : ℤ
  p_value : ℝ

/-! ## `regression_slope_t_test` (source lines 80-141), decomposed step by step -/

/-- Source lines 82-83 / 87-88: `X = sm.add_constant(data[features].to_numpy())`
on the dropna-filtered frame. -/
def rsttX (data : DataFrame) (fs : List String) (t : String) : List (List ℚ) :=
  add_constant (featMatrix (dropnaF data (fs ++ [t])) fs)

/-- Source lines 84 / 89 and 99-101: the target vector of the filtered frame,
log10-transformed when `logy` is set. -/
noncomputable def rsttY (data : DataFrame) (fs : List String) (t : String) (ly : Bool) :
    List ℝ :=
  logTr ly (targetVecR (dropnaF data (fs ++ [t])) t)

/-- Source line 91: the aligned boolean mask `common_systems` (over labels),
computed from the two dropna-filtered frames. -/
def rsttMask (data1 data2 : DataFrame) (cs : List String) : ℕ → Bool :=
  commonMask (dropnaF data1 cs) (dropnaF data2 cs)

/-- Source line 92/118/123: `any(common_systems)`.  A label where the mask
holds is a label of both frames, so ranging over frame 1's rows suffices. -/
def rsttAnyCommon (data1 data2 : DataFrame) (cs : List String) : Bool :=
  (dropnaF data1 cs).rows.any (fun r => rsttMask data1 data2 cs r.label)

/-- Source line 93: `data12 = data1.loc[common_systems].dropna(subset=features+[target])`. -/
def rsttData12 (data1 data2 : DataFrame) (cs : List String) : DataFrame :=
  dropnaF (locMask (dropnaF data1 cs) (rsttMask data1 data2 cs)) cs

/-- Source lines 94-95: `X12 = sm.add_constant(data12[features].to_numpy())`. -/
def rsttX12 (data1 data2 : DataFrame) (fs : List String) (t : String) : List (List ℚ) :=
  add_constant (featMatrix (rsttData12 data1 data2 (fs ++ [t])) fs)

/-- Source lines 96 and 102-103: `y1_common = data1.loc[common_systems][target]`,
log10-transformed when `logy` is set. -/
noncomputable def rsttY1c (data1 data2 : DataFrame) (fs : List String) (t : String)
    (ly : Bool) : List ℝ :=
  logTr ly (targetVecR (locMask (dropnaF data1 (fs ++ [t])) (rsttMask data1 data2 (fs ++ [t]))) t)

/-- Source lines 97 and 104: `y2_common = data2.loc[common_systems][target]`,
log10-transformed when `logy` is set. -/
noncomputable def rsttY2c (data1 data2 : DataFrame) (fs : List String) (t : String)
    (ly : Bool) : List ℝ :=
  logTr ly (targetVecR (locMask (dropnaF data2 (fs ++ [t])) (rsttMask data1 data2 (fs ++ [t]))) t)

/-- Source lines 107-108: `model = sm.OLS(y, X).fit()` via the external solver. -/
noncomputable def rsttModel (S : SolverQ) (data : DataFrame) (fs : List String)
    (t : String) (ly : Bool) : OLSFit :=
  S (rsttX data fs t) (rsttY data fs t ly)

/-- Source line 119: `residuals_model1 = y1_common - model1.predict(exog=X12)`. -/
noncomputable def rsttRes1 (S : SolverQ) (data1 data2 : DataFrame) (fs : List String)
    (t : String) (ly : Bool) : List ℝ :=
  listSub (rsttY1c data1 data2 fs t ly)
    ((rsttX12 data1 data2 fs t).map (dotQR (rsttModel S data1 fs t ly).params))

/-- Source line 120: `residuals_model2 = y2_common - model2.predict(exog=X12)`.
Note: `X12` comes from `data1` here as well. -/
noncomputable def rsttRes2 (S : SolverQ) (data1 data2 : DataFrame) (fs : List String)
    (t : String) (ly : Bool) : List ℝ :=
  listSub (rsttY2c data1 data2 fs t ly)
    ((rsttX12 data1 data2 fs t).map (dotQR (rsttModel S data2 fs t ly).params))

/-- Source lines 123-126: `rho = np.corrcoef(...)[0,1] if adj_corr and
any(common_systems) else 0`. -/
noncomputable def rsttRho (S : SolverQ) (data1 data2 : DataFrame) (fs : List String)
    (t : String) (ly adj : Bool) : ℝ :=
  if adj && rsttAnyCommon data1 data2 (fs ++ [t]) then
    corrcoef (rsttRes1 S data1 data2 fs t ly) (rsttRes2 S data1 data2 fs t ly)
  else 0

/-- Source line 129: the test statistic
`t = (b1 - b2) / sqrt(SE1² + SE2² - 2·SE1·SE2·rho)` with `b`/`SE` the
`params[1]` / `bse[1]` of the two independent fits. -/
noncomputable def rsttT (S : SolverQ) (data1 data2 : DataFrame) (fs : List String)
    (t : String) (ly adj : Bool) : ℝ :=
  ((rsttModel S data1 fs t ly).params.getD 1 0 - (rsttModel S data2 fs t ly).params.getD 1 0) /
    Real.sqrt ((rsttModel S data1 fs t ly).bse.getD 1 0 ^ 2 +
      (rsttModel S data2 fs t ly).bse.getD 1 0 ^ 2 -
      2 * (rsttModel S data1 fs t ly).bse.getD 1 0 *
        (rsttModel S data2 fs t ly).bse.getD 1 0 * rsttRho S data1 data2 fs t ly adj)

/-- Source lines 131-134: `df = (X1.shape[0] - 2) + (X2.shape[0] - 2)`
(Python integers, hence over `ℤ`). -/
def rsttDf (data1 data2 : DataFrame) (fs : List String) (t : String) : ℤ :=
  (((rsttX data1 fs t).length : ℤ) - 2) + (((rsttX data2 fs t).length : ℤ) - 2)

/-- Source lines 110-137: slopes, standard errors, correlation, test
statistic, degrees of freedom and p-value (`p = 2·(1 - tcdf(|t|, df))`).
`params[1]` / `bse[1]` are the slope of the first feature and its standard
error. -/
noncomputable def rsttOut (S : SolverQ) (tcdf : ℤ → ℝ → ℝ) (data1 data2 : DataFrame)
    (fs : List String) (t : String) (ly adj : Bool) : TTestResult :=
  { b1 := (rsttModel S data1 fs t ly).params.getD 1 0
    SE1 := (rsttModel S data1 fs t ly).bse.getD 1 0
    b2 := (rsttModel S data2 fs t ly).params.getD 1 0
    SE2 := (rsttModel S data2 fs t ly).bse.getD 1 0
    rho := rsttRho S data1 data2 fs t ly adj
    t_stat := rsttT S data1 data2 fs t ly adj
    df := rsttDf data1 data2 fs t
    p_value := 2 * (1 - tcdf (rsttDf data1 data2 fs t) |rsttT S data1 data2 fs t ly adj|) }

/-- `regression_slope_t_test(data1, data2, features, target, logy, adj_corr)`
(source lines 80-141).  The `dropna(subset=...)`/column selections raise a
`KeyError` when a required column is absent (first for `data1`, then for
`data2`); otherwise the whole computation goes through and the printed
quantities are returned. -/
noncomputable def regression_slope_t_test (S : SolverQ) (tcdf : ℤ → ℝ → ℝ)
    (data1 data2 : DataFrame) (features : List String) (target : String)
    (logy adj_corr : Bool) : Except RegError TTestResult :=
  if (features ++ [target]).all (fun c => data1.cols.contains c) then
    if (features ++ [target]).all (fun c => data2.cols.contains c) then
      .ok (rsttOut S tcdf data1 data2 features target logy adj_corr)
    else
      .error (.missingColumn ((features ++ [target]).filter (fun c => !data2.cols.contains c)))
  else
    .error (.missingColumn ((features ++ [target]).filter (fun c => !data1.cols.contains c)))

/-! ## `fit_ols_regression` and `get_predictions` (source lines 10-62) -/

/-- The result of the formula-API fit: the fitted coefficients together with
the feature names, in fit order (`model.params.index` is
`['Intercept', feature1, ...]`, so `params.index[1:]` is `featureNames`). -/
structure FormulaModel where
  featureNames : List String
  params : List ℝ

/-- `fit_ols_regression(data, features, target, logy)` (source lines 10-36):
drop rows with missing values, optionally log10-transform the target, and fit
`target ~ features` (the formula API always adds an `Intercept` column).
A missing column raises `KeyError` (from `dropna`/the formula); there is no
other error path. -/
noncomputable def fit_ols_regression (S : SolverQ) (data : DataFrame)
    (features : List String) (target : String) (logy : Bool) :
    Except RegError FormulaModel :=
  if (features ++ [target]).all (fun c => data.cols.contains c) then
    let d := dropnaF data (features ++ [target])
    let y := logTr logy (targetVecR d target)
    let X := (featMatrix d features).map (fun r => 1 :: r)
    .ok ⟨features, (S X y).params⟩
  else
    .error (.missingColumn ((features ++ [target]).filter (fun c => !data.cols.contains c)))

/-- All-or-nothing sequencing of a row's feature values (a NaN feature value
propagates to a NaN prediction). -/
def seqOption : List (Option ℚ) → Option (List ℚ)
  | [] => some []
  | none :: _ => none
  | some a :: rest => (seqOption rest).map (fun l => a :: l)

/-- The per-row linear prediction `intercept + Σ coefficient_i · feature_i`
of a formula model (`none` when a feature value is NaN). -/
noncomputable def predictRow (m : FormulaModel) (r : Row) : Option ℝ :=
  (seqOption (m.featureNames.map (fun c => getVal r c))).map
    (fun vs : List ℚ => m.params.getD 0 0 +
      (List.zipWith (fun p q => p * (q : ℝ)) (m.params.drop 1) vs).sum)

/-- `get_predictions(model, data, features)` (source lines 39-62): the
required features are read from the model (`model.params.index[1:]`); if any
is absent from `data.columns` a `ValueError` naming the missing set is
raised, otherwise one prediction per row is returned, in row order.  The
`features` argument is accepted but never used (exactly as in the source). -/
noncomputable def get_predictions (model : FormulaModel) (data : DataFrame)
    (featuresArg : List String) : Except RegError (List (Option ℝ)) :=
  let missing := (model.featureNames.filter (fun c => !data.cols.contains c)).dedup
  if missing.isEmpty then
    .ok (data.rows.map (fun r => predictRow model r))
  else
    .error (.missingFeature missing)

/-! ## `print_growth_rates` (source lines 73-77) -/

/-- Modelled from the spec: `ooms_to_factor_per_year` is defined in
`utils.py`, which is not part of the repository snapshot; spec §4.4 defines
it as the multiplicative factor per unit time, `10 ^ slope`. -/
noncomputable def ooms_to_factor_per_year (s : ℝ) : ℝ :=
  (10 : ℝ) ^ s

/-- Modelled from the spec: `ooms_to_doubling_time_months` is defined in
`utils.py`, which is not part of the repository snapshot; spec §4.4 defines
the doubling time as `log10(2)/slope` converted to months (12 months per
unit-year). -/
noncomputable def ooms_to_doubling_time_months (s : ℝ) : ℝ :=
  12 * Real.logb 10 2 / s

/-- What `print_growth_rates` consumes from a fitted model: the coefficient
vector, the per-coefficient 95% confidence bounds (`conf_int()[i] =
[ciLo[i], ciHi[i]]` for the array-API results used in this file), and the
adjusted R².  -/
structure FittedModel where
  params : List ℝ
  ciLo : List ℝ
  ciHi : List ℝ
  rsquared_adj : ℝ

/-- The text printed by `print_growth_rates`, as structured values; each pair
records the printed order of the two CI bounds on its line. -/
structure GrowthReport where
  adjR2 : ℝ
  slope : ℝ
  slopeCI : ℝ × ℝ
  factor : ℝ
  factorCI : ℝ × ℝ
  doubling : ℝ
  doublingCI : ℝ × ℝ

/-- `print_growth_rates(model)` (source lines 73-77).  Line 77 prints the
doubling time of the slope and then the pair
`(ooms_to_doubling_time_months(conf_int()[1][1]), ooms_to_doubling_time_months(conf_int()[1][0]))`,
i.e. the value at the upper slope bound first, the lower bound second. -/
noncomputable def print_growth_rates (m : FittedModel) : GrowthReport :=
  { adjR2 := m.rsquared_adj
    slope := m.params.getD 1 0
    slopeCI := (m.ciLo.getD 1 0, m.ciHi.getD 1 0)
    factor := ooms_to_factor_per_year (m.params.getD 1 0)
    factorCI := (ooms_to_factor_per_year (m.ciLo.getD 1 0),
                 ooms_to_factor_per_year (m.ciHi.getD 1 0))
    doubling := ooms_to_doubling_time_months (m.params.getD 1 0)
    doublingCI := (ooms_to_doubling_time_months (m.ciHi.getD 1 0),
                   ooms_to_doubling_time_months (m.ciLo.getD 1 0)) }

/-! ## Mutation model for `fit_ols_regression` (claim C9)

`fit_ols_regression` rebinds its local name with `data = data.dropna(...)`
(pandas `dropna` returns a new frame) and then executes
`data[target] = np.log10(data[target])`, an in-place write to whatever frame
the local name refers to.  To reason about the caller's frame we model a heap
of frames (`Store`) with explicit references; values are `Option ℝ` here
since the log10 transform writes real values into the frame. -/

/-- A dataframe row with real-valued entries (post-transform values). -/
structure RRow where
  label : ℕ
  sys : ℕ
  vals : List (String × Option ℝ)

/-- A real-valued dataframe living on the heap. -/
structure RFrame where
  cols : List String
  rows : List RRow

/-- `dropna` for heap frames. -/
def dropnaR (df : RFrame) (cs : List String) : RFrame :=
  ⟨df.cols, df.rows.filter (fun r => cs.all (fun c => ((r.vals.lookup c).join).isSome))⟩

/-- `df[c] = f(df[c])`: rewrite one column in place. -/
def setColR (df : RFrame) (c : String) (f : Option ℝ → Option ℝ) : RFrame :=
  ⟨df.cols, df.rows.map (fun r =>
    ⟨r.label, r.sys, r.vals.map (fun p => if p.1 = c then (p.1, f p.2) else p)⟩)⟩

/-- The heap of frames. -/
abbrev Store := List RFrame

/-- Dereference a frame. -/
def readRef (st : Store) (i : ℕ) : RFrame :=
  (st[i]?).getD ⟨[], []⟩

/-- Feature matrix of a heap frame (defaults never used after `dropna`). -/
def featMatrixR (df : RFrame) (fs : List String) : List (List ℝ) :=
  df.rows.map (fun r => fs.map (fun c => ((r.vals.lookup c).join).getD 0))

/-- Target vector of a heap frame. -/
def targetVecRR (df : RFrame) (t : String) : List ℝ :=
  df.rows.map (fun r => ((r.vals.lookup t).join).getD 0)

/-- `fit_ols_regression` over the heap model: the caller passes a reference
`dataRef` to its frame; `data = data.dropna(...)` allocates a fresh frame and
rebinds the local name to it; with `logy=True` the log10 write mutates the
frame the local name refers to; the fit then reads that frame.  Returns the
final heap together with the result. -/
noncomputable def fit_ols_regression_store (S : List (List ℝ) → List ℝ → OLSFit)
    (st : Store) (dataRef : ℕ) (features : List String) (target : String)
    (logy : Bool) : Store × Except RegError FormulaModel :=
  let d0 := readRef st dataRef
  if (features ++ [target]).all (fun c => d0.cols.contains c) then
    let st1 := st ++ [dropnaR d0 (features ++ [target])]
    let localRef := st.length
    let st2 := if logy then
        st1.set localRef (setColR (readRef st1 localRef) target (Option.map (Real.logb 10)))
      else st1
    let d := readRef st2 localRef
    (st2, .ok ⟨features,
      (S ((featMatrixR d features).map (fun r => 1 :: r)) (targetVecRR d target)).params⟩)
  else
    (st, .error (.missingColumn ((features ++ [target]).filter (fun c => !d0.cols.contains c))))

/-! ## A concrete external OLS solver

`sm.OLS(...).fit()` is an external collaborator assumed correct (spec §1,
§6); for concrete evaluations we instantiate it with the closed-form
normal-equations solution for a design of the shape produced above for one
feature, `[1, x]` per row: slope `b = Sxy/Sxx`, intercept `a = ȳ - b·x̄`,
residual variance `σ̂² = SSR/(n-2)`, standard errors
`SE(a) = √(σ̂²·(1/n + x̄²/Sxx))` and `SE(b) = √(σ̂²/Sxx)`. -/
noncomputable def olsSimple : SolverQ := fun X y =>
  let xs : List ℝ := X.map (fun r => ((r.getD 1 0 : ℚ) : ℝ))
  let n : ℝ := xs.length
  let xbar := xs.sum / n
  let ybar := y.sum / n
  let sxx := (xs.map (fun x => (x - xbar) ^ 2)).sum
  let sxy := (List.zipWith (fun x yv => (x - xbar) * (yv - ybar)) xs y).sum
  let b := sxy / sxx
  let a := ybar - b * xbar
  let ssr := (List.zipWith (fun x yv => (yv - (a + b * x)) ^ 2) xs y).sum
  let sigma2 := ssr / (n - 2)
  { params := [a, b]
    bse := [Real.sqrt (sigma2 * (1 / n + xbar ^ 2 / sxx)), Real.sqrt (sigma2 / sxx)] }

/-- A trivial Student-t CDF instantiation for concrete runs (the CDF is an
external collaborator; no claim below depends on its values). -/
def tcdf0 : ℤ → ℝ → ℝ := fun _ _ => 0

/-! ## The spec's reading of the Common Subset (claim C1)

Spec §4.5 step 3: "entities present in both datasets (matched by entity
identifier), then apply the same missing-value filter to this subset" — the
rows of dataset 1 whose `System` value occurs among dataset 2's `System`
values (a row's `System` trivially occurs in its own dataset), filtered for
missing values. -/
def specCommonSubset (d1 d2 : DataFrame) (cs : List String) : DataFrame :=
  dropnaF ⟨d1.cols, d1.rows.filter (fun r => d2.rows.any (fun q => q.sys == r.sys))⟩ cs

/-! ## Concrete frames used in counterexamples and witnesses -/

/-- Frame A: labels 0,1,2, systems 10,11,12, feature x = 0,1,2, target
y = 0,2,3 (no missing values). -/
def dfA : DataFrame :=
  ⟨["x", "y"],
    [⟨0, 10, [("x", some 0), ("y", some 0)]⟩,
     ⟨1, 11, [("x", some 1), ("y", some 2)]⟩,
     ⟨2, 12, [("x", some 2), ("y", some 3)]⟩]⟩

/-- Frame B: labels 0,1,3, systems 10,11,13, feature x = 0,2,4, target
y = 0,3,3.  Systems 10 and 11 are shared with `dfA` at the shared labels 0
and 1, but with different feature values there. -/
def dfB : DataFrame :=
  ⟨["x", "y"],
    [⟨0, 10, [("x", some 0), ("y", some 0)]⟩,
     ⟨1, 11, [("x", some 2), ("y", some 3)]⟩,
     ⟨3, 13, [("x", some 4), ("y", some 3)]⟩]⟩

/-- Frame C: same labels/systems/features as `dfA` on the common labels 0,1
(so the symmetric-case hypothesis of the amended C2 holds against `dfA`). -/
def dfC : DataFrame :=
  ⟨["x", "y"],
    [⟨0, 10, [("x", some 0), ("y", some 5)]⟩,
     ⟨1, 11, [("x", some 1), ("y", some 7)]⟩,
     ⟨3, 13, [("x", some 4), ("y", some 3)]⟩]⟩

/-- Frame D: systems 20,21 — disjoint from `dfA`'s systems. -/
def dfD : DataFrame :=
  ⟨["x", "y"],
    [⟨0, 20, [("x", some 0), ("y", some 1)]⟩,
     ⟨1, 21, [("x", some 1), ("y", some 2)]⟩]⟩

/-- C1 counterexample frame: one row, label 0, system 5. -/
def cd1 : DataFrame :=
  ⟨["x", "y"], [⟨0, 5, [("x", some 1), ("y", some 2)]⟩]⟩

/-- C1 counterexample frame: one row with the same system 5 but label 1. -/
def cd2 : DataFrame :=
  ⟨["x", "y"], [⟨1, 5, [("x", some 3), ("y", some 4)]⟩]⟩

/-- C6 failing-input frame: target value 0 present (not missing) in row 1. -/
def dfP : DataFrame :=
  ⟨["x", "y"],
    [⟨0, 30, [("x", some 0), ("y", some 10)]⟩,
     ⟨1, 31, [("x", some 1), ("y", some 0)]⟩]⟩

/-! ## Helper lemmas -/

theorem contains_iff (l : List String) (c : String) : l.contains c = true ↔ c ∈ l :=
  List.elem_iff

theorem add_constant_length (X : List (List ℚ)) : (add_constant X).length = X.length := by
  unfold add_constant
  split <;> simp

theorem rsttX_length (d : DataFrame) (fs : List String) (t : String) :
    (rsttX d fs t).length = (dropnaF d (fs ++ [t])).rows.length := by
  simp [rsttX, add_constant_length, featMatrix]

theorem mem_rows_of_mem_dropnaF {d : DataFrame} {cs : List String} {r : Row}
    (h : r ∈ (dropnaF d cs).rows) : r ∈ d.rows :=
  (List.mem_filter.mp h).1

/-- A label where the aligned mask holds is present in the first frame with
systems occurring crosswise; in particular the mask forces membership of both
frames' rows at that label. -/
theorem rsttAnyCommon_eq_false_of_disjoint (d1 d2 : DataFrame) (cs : List String)
    (hdisj : ∀ r1 ∈ d1.rows, ∀ r2 ∈ d2.rows, r1.sys ≠ r2.sys) :
    rsttAnyCommon d1 d2 cs = false := by
  unfold rsttAnyCommon
  rw [List.any_eq_false]
  intro r _
  unfold rsttMask commonMask
  cases h1 : lookupRow (dropnaF d1 cs) r.label with
  | none => simp
  | some r1 =>
    cases h2 : lookupRow (dropnaF d2 cs) r.label with
    | none => simp
    | some r2 =>
      have hr1 : r1 ∈ d1.rows :=
        mem_rows_of_mem_dropnaF (List.mem_of_find?_eq_some h1)
      have hany : (dropnaF d2 cs).rows.any (fun q => q.sys == r1.sys) = false := by
        rw [List.any_eq_false]
        intro q hq
        have hq2 : q ∈ d2.rows := mem_rows_of_mem_dropnaF hq
        simpa using (hdisj r1 hr1 q hq2).symm
      simp [hany]

/-! ## Claim theorems -/

/-- C10: the output of `get_predictions` does not depend on its `features`
argument — any two values of the argument yield identical results, since the
required features are taken from the model's stored parameter names. -/
theorem c10_get_predictions_independent_of_features (m : FormulaModel)
    (d : DataFrame) (f1 f2 : List String) :
    get_predictions m d f1 = get_predictions m d f2 := rfl

/-- C8: for a fitted model with positive slope CI `[lo, hi]`, `lo < slope < hi`,
`print_growth_rates` reports the doubling-time CI with the value computed
from `hi` first and the value computed from `lo` second; the order reversal
is genuine since the doubling-time transform is strictly decreasing there. -/
theorem c8_doubling_time_ci_reversed (m : FittedModel)
    (h0 : 0 < m.ciLo.getD 1 0)
    (h1 : m.ciLo.getD 1 0 < m.params.getD 1 0)
    (h2 : m.params.getD 1 0 < m.ciHi.getD 1 0) :
    (print_growth_rates m).doublingCI =
      (ooms_to_doubling_time_months (m.ciHi.getD 1 0),
       ooms_to_doubling_time_months (m.ciLo.getD 1 0)) ∧
    ooms_to_doubling_time_months (m.ciHi.getD 1 0) <
      ooms_to_doubling_time_months (m.ciLo.getD 1 0) := by
  refine ⟨rfl, ?_⟩
  have hL : 0 < Real.logb 10 2 := Real.logb_pos (by norm_num) (by norm_num)
  have h12 : (0 : ℝ) < 12 * Real.logb 10 2 := by positivity
  unfold ooms_to_doubling_time_months
  exact div_lt_div_of_pos_left h12 h0 (lt_trans h1 h2)

/-- Concrete fitted model for the C8 witness: slope 2 with CI [1, 3]. -/
def fmW : FittedModel := ⟨[0, 2], [0, 1], [0, 3], 0⟩

theorem c8_witness :
    (print_growth_rates fmW).doublingCI =
      (ooms_to_doubling_time_months (fmW.ciHi.getD 1 0),
       ooms_to_doubling_time_months (fmW.ciLo.getD 1 0)) ∧
    ooms_to_doubling_time_months (fmW.ciHi.getD 1 0) <
      ooms_to_doubling_time_months (fmW.ciLo.getD 1 0) :=
  c8_doubling_time_ci_reversed fmW (by norm_num [fmW]) (by norm_num [fmW])
    (by norm_num [fmW])

/-- C9: `fit_ols_regression` never modifies the caller's dataframe: `dropna`
allocates a fresh frame and the `logy` write mutates only that local copy,
so any valid reference into the original heap reads the same frame after the
call. -/
theorem c9_fit_ols_regression_no_frame_effect (S : List (List ℝ) → List ℝ → OLSFit)
    (st : Store) (r : ℕ) (fs : List String) (t : String) (ly : Bool)
    (h : r < st.length) :
    readRef (fit_ols_regression_store S st r fs t ly).1 r = readRef st r := by
  have key2 : ∀ fr : RFrame, readRef (st ++ [fr]) r = readRef st r := by
    intro fr
    unfold readRef
    rw [List.getElem?_append_left h]
  have key : ∀ fr gr : RFrame, readRef ((st ++ [fr]).set st.length gr) r = readRef st r := by
    intro fr gr
    have hne : st.length ≠ r := (Nat.ne_of_lt h).symm
    unfold readRef
    rw [List.getElem?_set_ne hne]
    exact key2 fr
  unfold fit_ols_regression_store
  by_cases hc : ((fs ++ [t]).all fun c => (readRef st r).cols.contains c) = true
  · rw [if_pos hc]
    cases ly
    · exact key2 _
    · exact key _ _
  · rw [if_neg hc]

/-- One-frame heap for the C9 witness (no row data needed). -/
def stW : Store := [⟨["y"], []⟩]

theorem c9_witness :
    readRef (fit_ols_regression_store (fun _ _ => ⟨[], []⟩) stW 0 [] "y" true).1 0 =
      readRef stW 0 :=
  c9_fit_ols_regression_no_frame_effect (fun _ _ => ⟨[], []⟩) stW 0 [] "y" true
    (by norm_num [stW])

/-- C7: `get_predictions` raises the missing-feature error, naming exactly
the model features absent from the prediction data, whenever at least one is
absent; otherwise it returns one prediction per input row, in row order. -/
theorem c7_get_predictions_contract (m : FormulaModel) (d : DataFrame)
    (fs : List String) :
    ((∃ c ∈ m.featureNames, c ∉ d.cols) →
      ∃ ms, get_predictions m d fs = .error (.missingFeature ms) ∧
        ms ≠ [] ∧ ∀ c, c ∈ ms ↔ (c ∈ m.featureNames ∧ c ∉ d.cols)) ∧
    ((∀ c ∈ m.featureNames, c ∈ d.cols) →
      get_predictions m d fs = .ok (d.rows.map (fun r => predictRow m r)) ∧
      (d.rows.map (fun r => predictRow m r)).length = d.rows.length ∧
      ∀ i : ℕ, (d.rows.map (fun r => predictRow m r))[i]? =
        (d.rows[i]?).map (fun r => predictRow m r)) := by
  have hmem : ∀ c, c ∈ (m.featureNames.filter (fun c => !d.cols.contains c)).dedup ↔
      (c ∈ m.featureNames ∧ c ∉ d.cols) := by
    intro c
    rw [List.mem_dedup, List.mem_filter]
    simp [contains_iff]
  constructor
  · rintro ⟨c, hc, hcn⟩
    have hne : (m.featureNames.filter (fun c => !d.cols.contains c)).dedup ≠ [] := by
      intro hnil
      have := (hmem c).mpr ⟨hc, hcn⟩
      rw [hnil] at this
      exact (List.not_mem_nil c) this
    refine ⟨(m.featureNames.filter (fun c => !d.cols.contains c)).dedup, ?_, hne, hmem⟩
    unfold get_predictions
    rw [if_neg]
    intro hemp
    exact hne (List.isEmpty_iff.mp hemp)
  · intro hall
    have hnil : (m.featureNames.filter (fun c => !d.cols.contains c)).dedup = [] := by
      rcases hq : (m.featureNames.filter (fun c => !d.cols.contains c)).dedup with _ | ⟨c, rest⟩
      · rfl
      · have hc : c ∈ (m.featureNames.filter (fun c => !d.cols.contains c)).dedup := by
          rw [hq]; exact List.mem_cons_self c rest
        rcases (hmem c).mp hc with ⟨hc1, hc2⟩
        exact absurd (hall c hc1) hc2
    refine ⟨?_, by simp, by simp⟩
    unfold get_predictions
    rw [if_pos]
    rw [hnil]
    rfl

/-- Model and frames for the C7 witness. -/
def fm7 : FormulaModel := ⟨["a", "b"], [1, 2, 3]⟩

def d7ok : DataFrame := ⟨["a", "b"], [⟨0, 0, [("a", some 1), ("b", some 2)]⟩]⟩

def d7bad : DataFrame := ⟨["a"], [⟨0, 0, [("a", some 1)]⟩]⟩

theorem c7_witness :
    (∃ ms, get_predictions fm7 d7bad [] = .error (.missingFeature ms) ∧
      ms ≠ [] ∧ ∀ c, c ∈ ms ↔ (c ∈ fm7.featureNames ∧ c ∉ d7bad.cols)) ∧
    (get_predictions fm7 d7ok [] = .ok (d7ok.rows.map (fun r => predictRow fm7 r)) ∧
      (d7ok.rows.map (fun r => predictRow fm7 r)).length = d7ok.rows.length ∧
      ∀ i : ℕ, (d7ok.rows.map (fun r => predictRow fm7 r))[i]? =
        (d7ok.rows[i]?).map (fun r => predictRow fm7 r)) :=
  ⟨(c7_get_predictions_contract fm7 d7bad []).1 ⟨"b", by decide, by decide⟩,
   (c7_get_predictions_contract fm7 d7ok []).2 (by decide)⟩

/-- C5: when the two datasets share no entity identifiers, the residual
correlation is 0 whatever the adjustment flag, and the run with adjustment
enabled coincides with the run with adjustment disabled. -/
theorem c5_no_overlap_reduces_to_unadjusted (S : SolverQ) (tcdf : ℤ → ℝ → ℝ)
    (d1 d2 : DataFrame) (fs : List String) (t : String) (ly : Bool)
    (hdisj : ∀ r1 ∈ d1.rows, ∀ r2 ∈ d2.rows, r1.sys ≠ r2.sys) :
    (∀ adj, rsttRho S d1 d2 fs t ly adj = 0) ∧
    regression_slope_t_test S tcdf d1 d2 fs t ly true =
      regression_slope_t_test S tcdf d1 d2 fs t ly false := by
  have hA := rsttAnyCommon_eq_false_of_disjoint d1 d2 (fs ++ [t]) hdisj
  have hrho : ∀ adj, rsttRho S d1 d2 fs t ly adj = 0 := by
    intro adj
    unfold rsttRho
    rw [hA]
    simp
  refine ⟨hrho, ?_⟩
  have hT : rsttT S d1 d2 fs t ly true = rsttT S d1 d2 fs t ly false := by
    unfold rsttT
    rw [hrho true, hrho false]
  have hout : rsttOut S tcdf d1 d2 fs t ly true = rsttOut S tcdf d1 d2 fs t ly false := by
    unfold rsttOut
    rw [hT, hrho true, hrho false]
  unfold regression_slope_t_test
  rw [hout]

theorem c5_witness :
    (∀ adj, rsttRho olsSimple dfA dfD ["x"] "y" false adj = 0) ∧
    regression_slope_t_test olsSimple tcdf0 dfA dfD ["x"] "y" false true =
      regression_slope_t_test olsSimple tcdf0 dfA dfD ["x"] "y" false false :=
  c5_no_overlap_reduces_to_unadjusted olsSimple tcdf0 dfA dfD ["x"] "y" false
    (by decide)

/-- C4: whenever the required columns exist, `regression_slope_t_test`
reports `p = 2·(1 - tcdf(df, |t|))` with
`t = (b1-b2)/sqrt(SE1² + SE2² - 2·SE1·SE2·rho)`, the `b`s and `SE`s the
first-feature slope and standard error of the two independent fits, and
`df = (n1-2) + (n2-2)` for the post-filter row counts. -/
theorem c4_p_value_formula (S : SolverQ) (tcdf : ℤ → ℝ → ℝ) (d1 d2 : DataFrame)
    (fs : List String) (t : String) (ly adj : Bool)
    (h1 : ((fs ++ [t]).all fun c => d1.cols.contains c) = true)
    (h2 : ((fs ++ [t]).all fun c => d2.cols.contains c) = true) :
    ∃ out, regression_slope_t_test S tcdf d1 d2 fs t ly adj = .ok out ∧
      out.p_value = 2 * (1 - tcdf out.df |out.t_stat|) ∧
      out.t_stat = (out.b1 - out.b2) /
        Real.sqrt (out.SE1 ^ 2 + out.SE2 ^ 2 - 2 * out.SE1 * out.SE2 * out.rho) ∧
      out.b1 = (S (rsttX d1 fs t) (rsttY d1 fs t ly)).params.getD 1 0 ∧
      out.SE1 = (S (rsttX d1 fs t) (rsttY d1 fs t ly)).bse.getD 1 0 ∧
      out.b2 = (S (rsttX d2 fs t) (rsttY d2 fs t ly)).params.getD 1 0 ∧
      out.SE2 = (S (rsttX d2 fs t) (rsttY d2 fs t ly)).bse.getD 1 0 ∧
      out.df = (((dropnaF d1 (fs ++ [t])).rows.length : ℤ) - 2) +
        (((dropnaF d2 (fs ++ [t])).rows.length : ℤ) - 2) := by
  refine ⟨rsttOut S tcdf d1 d2 fs t ly adj, ?_, rfl, rfl, rfl, rfl, rfl, rfl, ?_⟩
  · unfold regression_slope_t_test
    rw [if_pos h1, if_pos h2]
  · show rsttDf d1 d2 fs t = _
    unfold rsttDf
    rw [rsttX_length, rsttX_length]

theorem c4_witness :
    ∃ out, regression_slope_t_test olsSimple tcdf0 dfA dfB ["x"] "y" false true = .ok out ∧
      out.p_value = 2 * (1 - tcdf0 out.df |out.t_stat|) ∧
      out.t_stat = (out.b1 - out.b2) /
        Real.sqrt (out.SE1 ^ 2 + out.SE2 ^ 2 - 2 * out.SE1 * out.SE2 * out.rho) ∧
      out.b1 = (olsSimple (rsttX dfA ["x"] "y") (rsttY dfA ["x"] "y" false)).params.getD 1 0 ∧
      out.SE1 = (olsSimple (rsttX dfA ["x"] "y") (rsttY dfA ["x"] "y" false)).bse.getD 1 0 ∧
      out.b2 = (olsSimple (rsttX dfB ["x"] "y") (rsttY dfB ["x"] "y" false)).params.getD 1 0 ∧
      out.SE2 = (olsSimple (rsttX dfB ["x"] "y") (rsttY dfB ["x"] "y" false)).bse.getD 1 0 ∧
      out.df = (((dropnaF dfA (["x"] ++ ["y"])).rows.length : ℤ) - 2) +
        (((dropnaF dfB (["x"] ++ ["y"])).rows.length : ℤ) - 2) :=
  c4_p_value_formula olsSimple tcdf0 dfA dfB ["x"] "y" false true (by decide) (by decide)

/-- C6 (code bug): with `logy = true` and the (non-missing) target value `0`
surviving the missing-value filter, `fit_ols_regression` raises nothing: for
every solver it returns a fitted model, silently feeding `np.log10(0)` into
the fit instead of surfacing an `InvalidTransformError`. -/
theorem c6_log_nonpositive_not_surfaced :
    (∃ r ∈ (dropnaF dfP (["x"] ++ ["y"])).rows, ∃ v, getVal r "y" = some v ∧ v ≤ 0) ∧
    ∀ S : SolverQ, ∃ fm, fit_ols_regression S dfP ["x"] "y" true = .ok fm := by
  constructor
  · exact ⟨⟨1, 31, [("x", some 1), ("y", some 0)]⟩, by decide, 0, by decide, le_refl 0⟩
  · intro S
    unfold fit_ols_regression
    rw [if_pos (by decide)]
    exact ⟨_, rfl⟩

/-! ## Concrete evaluation lemmas (used for C3 and the C2 counterexample) -/

theorem corrcoef_self (u : List ℝ) (h : 0 < sdot (centeredR u) (centeredR u)) :
    corrcoef u u = 1 := by
  unfold corrcoef
  rw [Real.sqrt_mul_self (le_of_lt h)]
  exact div_self (ne_of_gt h)

theorem hXA : rsttX dfA ["x"] "y" = [[1, 0], [1, 1], [1, 2]] := by decide

theorem hYA : rsttY dfA ["x"] "y" false = [0, 2, 3] := by
  show logTr false (targetVecR (dropnaF dfA (["x"] ++ ["y"])) "y") = _
  unfold targetVecR
  rw [show targetVecQ (dropnaF dfA (["x"] ++ ["y"])) "y" = [0, 2, 3] from by decide]
  unfold logTr
  norm_num

theorem olsA_params :
    (rsttModel olsSimple dfA ["x"] "y" false).params = [1 / 6, 3 / 2] := by
  unfold rsttModel
  rw [hXA, hYA]
  unfold olsSimple
  norm_num [List.getD_cons_succ, List.getD_cons_zero]

theorem hX12AA : rsttX12 dfA dfA ["x"] "y" = [[1, 0], [1, 1], [1, 2]] := by decide

theorem hY1cAA : rsttY1c dfA dfA ["x"] "y" false = [0, 2, 3] := by
  show logTr false (targetVecR (locMask (dropnaF dfA (["x"] ++ ["y"]))
    (rsttMask dfA dfA (["x"] ++ ["y"]))) "y") = _
  unfold targetVecR
  rw [show targetVecQ (locMask (dropnaF dfA (["x"] ++ ["y"]))
    (rsttMask dfA dfA (["x"] ++ ["y"]))) "y" = [0, 2, 3] from by decide]
  unfold logTr
  norm_num

theorem resAA_eval :
    rsttRes1 olsSimple dfA dfA ["x"] "y" false = [-(1 / 6), 1 / 3, -(1 / 6)] := by
  unfold rsttRes1
  rw [hX12AA, hY1cAA, olsA_params]
  unfold listSub dotQR
  norm_num

/-- C3 (code bug): calling `regression_slope_t_test` on two identical
datasets gives `SE1 = SE2` and residual correlation exactly 1, so the
adjusted-variance term `SE1² + SE2² - 2·SE1·SE2·rho` is 0 (non-positive) —
yet the call raises nothing: it returns a result for every t-CDF
(`np.sqrt(0)` yields 0 and the division produces NaN/Inf silently; no
`DegenerateVarianceError` exists in the source). -/
theorem c3_degenerate_variance_not_detected (tcdf : ℤ → ℝ → ℝ) :
    ∃ out, regression_slope_t_test olsSimple tcdf dfA dfA ["x"] "y" false true = .ok out ∧
      out.SE1 = out.SE2 ∧ out.rho = 1 ∧
      out.SE1 ^ 2 + out.SE2 ^ 2 - 2 * out.SE1 * out.SE2 * out.rho = 0 := by
  have hres2 : rsttRes2 olsSimple dfA dfA ["x"] "y" false =
      rsttRes1 olsSimple dfA dfA ["x"] "y" false := rfl
  have hrho : rsttRho olsSimple dfA dfA ["x"] "y" false true = 1 := by
    unfold rsttRho
    rw [show rsttAnyCommon dfA dfA (["x"] ++ ["y"]) = true from by decide]
    simp only [Bool.and_self, eq_self_iff_true, if_true]
    rw [hres2, resAA_eval]
    apply corrcoef_self
    unfold centeredR meanR sdot
    norm_num
  refine ⟨rsttOut olsSimple tcdf dfA dfA ["x"] "y" false true, ?_, rfl, hrho, ?_⟩
  · unfold regression_slope_t_test
    rw [if_pos (by decide), if_pos (by decide)]
  · show (rsttModel olsSimple dfA ["x"] "y" false).bse.getD 1 0 ^ 2 +
      (rsttModel olsSimple dfA ["x"] "y" false).bse.getD 1 0 ^ 2 -
      2 * (rsttModel olsSimple dfA ["x"] "y" false).bse.getD 1 0 *
        (rsttModel olsSimple dfA ["x"] "y" false).bse.getD 1 0 *
        rsttRho olsSimple dfA dfA ["x"] "y" false true = 0
    rw [hrho]
    ring

/-! ## Evaluations for the `dfA` / `dfB` pair (C2 counterexample)

The two frames share systems 10 and 11 at labels 0 and 1, with different
feature values there (`x = 0,1` in `dfA` against `x = 0,2` in `dfB`), so the
common-subset design matrix differs between the two call orders. -/

theorem hXB : rsttX dfB ["x"] "y" = [[1, 0], [1, 2], [1, 4]] := by decide

theorem hYB : rsttY dfB ["x"] "y" false = [0, 3, 3] := by
  show logTr false (targetVecR (dropnaF dfB (["x"] ++ ["y"])) "y") = _
  unfold targetVecR
  rw [show targetVecQ (dropnaF dfB (["x"] ++ ["y"])) "y" = [0, 3, 3] from by decide]
  unfold logTr
  norm_num

theorem olsB_params :
    (rsttModel olsSimple dfB ["x"] "y" false).params = [1 / 2, 3 / 4] := by
  unfold rsttModel
  rw [hXB, hYB]
  unfold olsSimple
  norm_num [List.getD_cons_succ, List.getD_cons_zero]

theorem olsA_b : (rsttModel olsSimple dfA ["x"] "y" false).params.getD 1 0 = 3 / 2 := by
  rw [olsA_params]
  norm_num [List.getD_cons_succ, List.getD_cons_zero]

theorem olsB_b : (rsttModel olsSimple dfB ["x"] "y" false).params.getD 1 0 = 3 / 4 := by
  rw [olsB_params]
  norm_num [List.getD_cons_succ, List.getD_cons_zero]

theorem olsA_SE :
    (rsttModel olsSimple dfA ["x"] "y" false).bse.getD 1 0 = Real.sqrt (1 / 12) := by
  unfold rsttModel
  rw [hXA, hYA]
  unfold olsSimple
  norm_num [List.getD_cons_succ, List.getD_cons_zero]

theorem olsB_SE :
    (rsttModel olsSimple dfB ["x"] "y" false).bse.getD 1 0 = Real.sqrt (3 / 16) := by
  unfold rsttModel
  rw [hXB, hYB]
  unfold olsSimple
  norm_num [List.getD_cons_succ, List.getD_cons_zero]

theorem hX12AB : rsttX12 dfA dfB ["x"] "y" = [[1, 0], [1, 1]] := by decide

theorem hX12BA : rsttX12 dfB dfA ["x"] "y" = [[1, 0], [1, 2]] := by decide

theorem hY1cAB : rsttY1c dfA dfB ["x"] "y" false = [0, 2] := by
  show logTr false (targetVecR (locMask (dropnaF dfA (["x"] ++ ["y"]))
    (rsttMask dfA dfB (["x"] ++ ["y"]))) "y") = _
  unfold targetVecR
  rw [show targetVecQ (locMask (dropnaF dfA (["x"] ++ ["y"]))
    (rsttMask dfA dfB (["x"] ++ ["y"]))) "y" = [0, 2] from by decide]
  unfold logTr
  norm_num

theorem hY2cAB : rsttY2c dfA dfB ["x"] "y" false = [0, 3] := by
  show logTr false (targetVecR (locMask (dropnaF dfB (["x"] ++ ["y"]))
    (rsttMask dfA dfB (["x"] ++ ["y"]))) "y") = _
  unfold targetVecR
  rw [show targetVecQ (locMask (dropnaF dfB (["x"] ++ ["y"]))
    (rsttMask dfA dfB (["x"] ++ ["y"]))) "y" = [0, 3] from by decide]
  unfold logTr
  norm_num

theorem hY1cBA : rsttY1c dfB dfA ["x"] "y" false = [0, 3] := by
  show logTr false (targetVecR (locMask (dropnaF dfB (["x"] ++ ["y"]))
    (rsttMask dfB dfA (["x"] ++ ["y"]))) "y") = _
  unfold targetVecR
  rw [show targetVecQ (locMask (dropnaF dfB (["x"] ++ ["y"]))
    (rsttMask dfB dfA (["x"] ++ ["y"]))) "y" = [0, 3] from by decide]
  unfold logTr
  norm_num

theorem hY2cBA : rsttY2c dfB dfA ["x"] "y" false = [0, 2] := by
  show logTr false (targetVecR (locMask (dropnaF dfA (["x"] ++ ["y"]))
    (rsttMask dfB dfA (["x"] ++ ["y"]))) "y") = _
  unfold targetVecR
  rw [show targetVecQ (locMask (dropnaF dfA (["x"] ++ ["y"]))
    (rsttMask dfB dfA (["x"] ++ ["y"]))) "y" = [0, 2] from by decide]
  unfold logTr
  norm_num

theorem res1AB_eval :
    rsttRes1 olsSimple dfA dfB ["x"] "y" false = [-(1 / 6), 1 / 3] := by
  unfold rsttRes1
  rw [hX12AB, hY1cAB, olsA_params]
  unfold listSub dotQR
  norm_num

theorem res2AB_eval :
    rsttRes2 olsSimple dfA dfB ["x"] "y" false = [-(1 / 2), 7 / 4] := by
  unfold rsttRes2
  rw [hX12AB, hY2cAB, olsB_params]
  unfold listSub dotQR
  norm_num

theorem res1BA_eval :
    rsttRes1 olsSimple dfB dfA ["x"] "y" false = [-(1 / 2), 1] := by
  unfold rsttRes1
  rw [hX12BA, hY1cBA, olsB_params]
  unfold listSub dotQR
  norm_num

theorem res2BA_eval :
    rsttRes2 olsSimple dfB dfA ["x"] "y" false = [-(1 / 6), -(7 / 6)] := by
  unfold rsttRes2
  rw [hX12BA, hY2cBA, olsA_params]
  unfold listSub dotQR
  norm_num

theorem corr_AB : corrcoef [-(1 / 6), 1 / 3] [-(1 / 2), 7 / 4] = 1 := by
  unfold corrcoef centeredR meanR sdot
  norm_num
  rw [show (81 : ℝ) = 9 ^ 2 by norm_num, show (256 : ℝ) = 16 ^ 2 by norm_num,
    Real.sqrt_sq (by norm_num : (0 : ℝ) ≤ 9), Real.sqrt_sq (by norm_num : (0 : ℝ) ≤ 16)]
  norm_num

theorem corr_BA : corrcoef [-(1 / 2), 1] [-(1 / 6), -(7 / 6)] = -1 := by
  unfold corrcoef centeredR meanR sdot
  norm_num
  rw [show (9 : ℝ) = 3 ^ 2 by norm_num, show (16 : ℝ) = 4 ^ 2 by norm_num,
    Real.sqrt_sq (by norm_num : (0 : ℝ) ≤ 3), Real.sqrt_sq (by norm_num : (0 : ℝ) ≤ 4)]
  norm_num

theorem rhoAB : rsttRho olsSimple dfA dfB ["x"] "y" false true = 1 := by
  unfold rsttRho
  rw [show rsttAnyCommon dfA dfB (["x"] ++ ["y"]) = true from by decide]
  simp only [Bool.and_self, eq_self_iff_true, if_true]
  rw [res1AB_eval, res2AB_eval]
  exact corr_AB

theorem rhoBA : rsttRho olsSimple dfB dfA ["x"] "y" false true = -1 := by
  unfold rsttRho
  rw [show rsttAnyCommon dfB dfA (["x"] ++ ["y"]) = true from by decide]
  simp only [Bool.and_self, eq_self_iff_true, if_true]
  rw [res1BA_eval, res2BA_eval]
  exact corr_BA

theorem sqrtAB_prod : Real.sqrt (1 / 12) * Real.sqrt (3 / 16) = 1 / 8 := by
  rw [← Real.sqrt_mul (by norm_num : (0 : ℝ) ≤ 1 / 12)]
  rw [show ((1 : ℝ) / 12 * (3 / 16)) = (1 / 8) ^ 2 by norm_num,
    Real.sqrt_sq (by norm_num : (0 : ℝ) ≤ 1 / 8)]

theorem tAB_eval :
    rsttT olsSimple dfA dfB ["x"] "y" false true = (3 / 4) / Real.sqrt (1 / 48) := by
  unfold rsttT
  rw [olsA_b, olsB_b, olsA_SE, olsB_SE, rhoAB]
  rw [Real.sq_sqrt (by norm_num : (0 : ℝ) ≤ 1 / 12),
    Real.sq_sqrt (by norm_num : (0 : ℝ) ≤ 3 / 16)]
  rw [show 2 * Real.sqrt (1 / 12) * Real.sqrt (3 / 16) * 1 =
    2 * (Real.sqrt (1 / 12) * Real.sqrt (3 / 16)) by ring, sqrtAB_prod]
  norm_num

theorem tBA_eval :
    rsttT olsSimple dfB dfA ["x"] "y" false true = -((3 / 4) / Real.sqrt (25 / 48)) := by
  unfold rsttT
  rw [olsA_b, olsB_b, olsA_SE, olsB_SE, rhoBA]
  rw [Real.sq_sqrt (by norm_num : (0 : ℝ) ≤ 1 / 12),
    Real.sq_sqrt (by norm_num : (0 : ℝ) ≤ 3 / 16)]
  rw [show 2 * Real.sqrt (3 / 16) * Real.sqrt (1 / 12) * (-1) =
    -(2 * (Real.sqrt (1 / 12) * Real.sqrt (3 / 16))) by ring, sqrtAB_prod]
  rw [show (3 : ℝ) / 4 - 3 / 2 = -(3 / 4) by norm_num, neg_div]
  norm_num

/-- C2 (counterexample): with `dfA` and `dfB` sharing systems 10, 11 at
labels 0, 1 but with different feature values there, the two call orders of
`regression_slope_t_test` produce test statistics that are neither opposite
nor of equal magnitude: the residual-correlation step always evaluates both
models on `data1`'s common-subset design matrix, so swapping the datasets
changes the correlation (here from 1 to -1). -/
theorem c2_counterexample :
    ∃ oAB oBA,
      regression_slope_t_test olsSimple tcdf0 dfA dfB ["x"] "y" false true = .ok oAB ∧
      regression_slope_t_test olsSimple tcdf0 dfB dfA ["x"] "y" false true = .ok oBA ∧
      oAB.t_stat ≠ -oBA.t_stat ∧ |oAB.t_stat| ≠ |oBA.t_stat| := by
  have h1 : Real.sqrt (1 / 48) < Real.sqrt (25 / 48) :=
    Real.sqrt_lt_sqrt (by norm_num) (by norm_num)
  have h0 : (0 : ℝ) < Real.sqrt (1 / 48) := Real.sqrt_pos.mpr (by norm_num)
  have h0' : (0 : ℝ) < Real.sqrt (25 / 48) := Real.sqrt_pos.mpr (by norm_num)
  have hlt : (3 / 4) / Real.sqrt (25 / 48) < (3 / 4) / Real.sqrt (1 / 48) :=
    div_lt_div_of_pos_left (by norm_num) h0 h1
  refine ⟨rsttOut olsSimple tcdf0 dfA dfB ["x"] "y" false true,
          rsttOut olsSimple tcdf0 dfB dfA ["x"] "y" false true, ?_, ?_, ?_, ?_⟩
  · unfold regression_slope_t_test
    rw [if_pos (by decide), if_pos (by decide)]
  · unfold regression_slope_t_test
    rw [if_pos (by decide), if_pos (by decide)]
  · show rsttT olsSimple dfA dfB ["x"] "y" false true ≠
      -rsttT olsSimple dfB dfA ["x"] "y" false true
    rw [tAB_eval, tBA_eval, neg_neg]
    exact ne_of_gt hlt
  · show |rsttT olsSimple dfA dfB ["x"] "y" false true| ≠
      |rsttT olsSimple dfB dfA ["x"] "y" false true|
    rw [tAB_eval, tBA_eval, abs_neg,
      abs_of_pos (div_pos (by norm_num) h0), abs_of_pos (div_pos (by norm_num) h0')]
    exact ne_of_gt hlt

/-! ## Symmetry infrastructure (C1/C2 amended statements) -/

theorem commonMask_comm (d1 d2 : DataFrame) : commonMask d1 d2 = commonMask d2 d1 := by
  funext l
  unfold commonMask
  cases h1 : lookupRow d1 l <;> cases h2 : lookupRow d2 l <;> simp [Bool.and_comm]

theorem rsttMask_comm (d1 d2 : DataFrame) (cs : List String) :
    rsttMask d1 d2 cs = rsttMask d2 d1 cs := by
  unfold rsttMask
  rw [commonMask_comm]

theorem commonMask_exists_left {a b : DataFrame} {l : ℕ}
    (h : commonMask a b l = true) : ∃ r ∈ a.rows, r.label = l := by
  unfold commonMask at h
  cases h1 : lookupRow a l with
  | none => rw [h1] at h; cases h2 : lookupRow b l <;> rw [h2] at h <;> simp at h
  | some r1 =>
    refine ⟨r1, List.mem_of_find?_eq_some h1, ?_⟩
    have := List.find?_some h1
    simpa using this

theorem commonMask_exists_right {a b : DataFrame} {l : ℕ}
    (h : commonMask a b l = true) : ∃ r ∈ b.rows, r.label = l := by
  unfold commonMask at h
  cases h1 : lookupRow a l with
  | none => rw [h1] at h; cases h2 : lookupRow b l <;> rw [h2] at h <;> simp at h
  | some r1 =>
    cases h2 : lookupRow b l with
    | none => rw [h1, h2] at h; simp at h
    | some r2 =>
      refine ⟨r2, List.mem_of_find?_eq_some h2, ?_⟩
      have := List.find?_some h2
      simpa using this

theorem rsttAnyCommon_comm (d1 d2 : DataFrame) (cs : List String) :
    rsttAnyCommon d1 d2 cs = rsttAnyCommon d2 d1 cs := by
  unfold rsttAnyCommon
  rw [rsttMask_comm]
  rw [Bool.eq_iff_iff]
  simp only [List.any_eq_true]
  constructor
  · rintro ⟨r, hr, hm⟩
    obtain ⟨r2, hr2, hl2⟩ := commonMask_exists_left (a := dropnaF d2 cs) (b := dropnaF d1 cs)
      (by exact hm)
    exact ⟨r2, hr2, by rw [hl2]; exact hm⟩
  · rintro ⟨r, hr, hm⟩
    obtain ⟨r1, hr1, hl1⟩ := commonMask_exists_right (a := dropnaF d2 cs) (b := dropnaF d1 cs)
      (by exact hm)
    exact ⟨r1, hr1, by rw [hl1]; exact hm⟩

/-- The second `dropna` in `data12 = data1.loc[mask].dropna(...)` is a no-op:
`data1` was already filtered at source line 81. -/
theorem rsttData12_eq_locMask (d1 d2 : DataFrame) (cs : List String) :
    rsttData12 d1 d2 cs = locMask (dropnaF d1 cs) (rsttMask d1 d2 cs) := by
  unfold rsttData12
  show dropnaF (locMask (dropnaF d1 cs) (rsttMask d1 d2 cs)) cs = _
  unfold dropnaF locMask
  simp only [DataFrame.mk.injEq, true_and]
  apply List.filter_eq_self.mpr
  intro r hr
  exact (List.mem_filter.mp (List.mem_filter.mp hr).1).2

theorem sdot_comm (a b : List ℝ) : sdot a b = sdot b a := by
  unfold sdot
  rw [List.zipWith_comm_of_comm (fun x y => x * y) mul_comm]

theorem corrcoef_comm (u v : List ℝ) : corrcoef u v = corrcoef v u := by
  unfold corrcoef
  rw [sdot_comm (centeredR u) (centeredR v),
    mul_comm (sdot (centeredR u) (centeredR u)) (sdot (centeredR v) (centeredR v))]

/-- C2 (amended): the antisymmetry of the test statistic and the equality of
p-values under dataset exchange hold whenever the common-subset feature
matrices of the two call orders coincide (in particular whenever the two
datasets carry identical feature rows, in the same order, on the common
subset — and trivially when adjustment is off or there is no overlap, where
`rho = 0` on both sides). -/
theorem c2_amended_symmetry (S : SolverQ) (tcdf : ℤ → ℝ → ℝ) (d1 d2 : DataFrame)
    (fs : List String) (t : String) (ly adj : Bool)
    (hc1 : ((fs ++ [t]).all fun c => d1.cols.contains c) = true)
    (hc2 : ((fs ++ [t]).all fun c => d2.cols.contains c) = true)
    (hF : featMatrix (rsttData12 d1 d2 (fs ++ [t])) fs =
          featMatrix (rsttData12 d2 d1 (fs ++ [t])) fs) :
    ∃ o12 o21,
      regression_slope_t_test S tcdf d1 d2 fs t ly adj = .ok o12 ∧
      regression_slope_t_test S tcdf d2 d1 fs t ly adj = .ok o21 ∧
      o21.t_stat = -o12.t_stat ∧ o21.p_value = o12.p_value := by
  have hX12 : rsttX12 d2 d1 fs t = rsttX12 d1 d2 fs t := by
    unfold rsttX12
    rw [hF]
  have hY1c21 : rsttY1c d2 d1 fs t ly = rsttY2c d1 d2 fs t ly := by
    unfold rsttY1c rsttY2c
    rw [rsttMask_comm d2 d1]
  have hY2c21 : rsttY2c d2 d1 fs t ly = rsttY1c d1 d2 fs t ly := by
    unfold rsttY1c rsttY2c
    rw [rsttMask_comm d2 d1]
  have hres1 : rsttRes1 S d2 d1 fs t ly = rsttRes2 S d1 d2 fs t ly := by
    unfold rsttRes1 rsttRes2
    rw [hY1c21, hX12]
  have hres2 : rsttRes2 S d2 d1 fs t ly = rsttRes1 S d1 d2 fs t ly := by
    unfold rsttRes1 rsttRes2
    rw [hY2c21, hX12]
  have hrho : rsttRho S d2 d1 fs t ly adj = rsttRho S d1 d2 fs t ly adj := by
    unfold rsttRho
    rw [rsttAnyCommon_comm d2 d1, hres1, hres2, corrcoef_comm]
  have hT : rsttT S d2 d1 fs t ly adj = -rsttT S d1 d2 fs t ly adj := by
    unfold rsttT
    rw [hrho]
    rw [show (rsttModel S d2 fs t ly).bse.getD 1 0 ^ 2 +
        (rsttModel S d1 fs t ly).bse.getD 1 0 ^ 2 -
        2 * (rsttModel S d2 fs t ly).bse.getD 1 0 *
          (rsttModel S d1 fs t ly).bse.getD 1 0 * rsttRho S d1 d2 fs t ly adj =
        (rsttModel S d1 fs t ly).bse.getD 1 0 ^ 2 +
        (rsttModel S d2 fs t ly).bse.getD 1 0 ^ 2 -
        2 * (rsttModel S d1 fs t ly).bse.getD 1 0 *
          (rsttModel S d2 fs t ly).bse.getD 1 0 * rsttRho S d1 d2 fs t ly adj from by ring]
    rw [← neg_div, neg_sub]
  have hdf : rsttDf d2 d1 fs t = rsttDf d1 d2 fs t := by
    unfold rsttDf
    ring
  refine ⟨rsttOut S tcdf d1 d2 fs t ly adj, rsttOut S tcdf d2 d1 fs t ly adj, ?_, ?_, hT, ?_⟩
  · unfold regression_slope_t_test
    rw [if_pos hc1, if_pos hc2]
  · unfold regression_slope_t_test
    rw [if_pos hc2, if_pos hc1]
  · show 2 * (1 - tcdf (rsttDf d2 d1 fs t) |rsttT S d2 d1 fs t ly adj|) =
      2 * (1 - tcdf (rsttDf d1 d2 fs t) |rsttT S d1 d2 fs t ly adj|)
    rw [hdf, hT, abs_neg]

theorem c2_amended_witness :
    ∃ o12 o21,
      regression_slope_t_test olsSimple tcdf0 dfA dfC ["x"] "y" false true = .ok o12 ∧
      regression_slope_t_test olsSimple tcdf0 dfC dfA ["x"] "y" false true = .ok o21 ∧
      o21.t_stat = -o12.t_stat ∧ o21.p_value = o12.p_value :=
  c2_amended_symmetry olsSimple tcdf0 dfA dfC ["x"] "y" false true
    (by decide) (by decide) (by decide)

/-! ## C1: the Common Subset -/

/-- With pairwise distinct labels (pandas raises on duplicate-label
alignment, so this is the meaningful regime), looking a row's own label up
in its frame returns that row. -/
theorem find?_label_self {rows : List Row} (hn : (rows.map Row.label).Nodup)
    {r : Row} (hr : r ∈ rows) :
    rows.find? (fun q => q.label == r.label) = some r := by
  induction rows with
  | nil => cases hr
  | cons a tl ih =>
    rcases List.mem_cons.mp hr with rfl | htl
    · rw [List.find?_cons_of_pos _ (by simp)]
    · have hn' : (tl.map Row.label).Nodup := (List.nodup_cons.mp (by simpa using hn)).2
      have hna : a.label ∉ tl.map Row.label := (List.nodup_cons.mp (by simpa using hn)).1
      have hne : (a.label == r.label) = false := by
        simp only [beq_eq_false_iff_ne, ne_eq]
        intro heq
        exact hna (heq ▸ List.mem_map_of_mem Row.label htl)
      rw [List.find?_cons_of_neg _ (by simp [hne])]
      exact ih hn' htl

/-- C1 (counterexample): `cd1` and `cd2` each hold one row of system 5 (so
system 5 occurs in both datasets, and no value is missing), but the rows
carry different index labels — the code's common subset is empty while the
spec's (entity-matched) common subset is not. -/
theorem c1_counterexample :
    rsttData12 cd1 cd2 (["x"] ++ ["y"]) ≠ specCommonSubset cd1 cd2 (["x"] ++ ["y"]) ∧
    (rsttData12 cd1 cd2 (["x"] ++ ["y"])).rows = [] ∧
    (specCommonSubset cd1 cd2 (["x"] ++ ["y"])).rows ≠ [] ∧
    (∀ r ∈ cd1.rows, ∃ q ∈ cd2.rows, r.sys = q.sys) := by decide

/-- C1 (amended): the source's Common Subset is computed by index alignment,
not by entity membership alone.  After the missing-value filter on each
frame: (a) the second `dropna` applied to `data1.loc[mask]` is a no-op;
(b) a filtered row `r` of dataset 1 belongs to the common subset iff dataset
2's filtered frame has a row `r2` with the same index label such that
`r.sys` occurs among dataset 2's systems and `r2.sys` occurs among dataset
1's systems; (c) model 1's residuals are dataset 1's common-subset targets
(log-transformed if flagged) minus model 1's predictions on the common
subset's design matrix, while (d)-(e) model 2's residuals subtract model 2's
predictions on dataset **1**'s common design matrix from dataset 2's targets
at the mask, taken in dataset 2's own row order. -/
theorem c1_amended_common_subset (S : SolverQ) (d1 d2 : DataFrame)
    (fs : List String) (t : String) (ly : Bool)
    (h1 : ((dropnaF d1 (fs ++ [t])).rows.map Row.label).Nodup) :
    rsttData12 d1 d2 (fs ++ [t]) =
      locMask (dropnaF d1 (fs ++ [t])) (rsttMask d1 d2 (fs ++ [t])) ∧
    (rsttData12 d1 d2 (fs ++ [t])).rows = (dropnaF d1 (fs ++ [t])).rows.filter (fun r =>
      match lookupRow (dropnaF d2 (fs ++ [t])) r.label with
      | some r2 => (dropnaF d2 (fs ++ [t])).rows.any (fun q => q.sys == r.sys) &&
          (dropnaF d1 (fs ++ [t])).rows.any (fun q => q.sys == r2.sys)
      | none => false) ∧
    rsttRes1 S d1 d2 fs t ly =
      List.zipWith (fun yv xrow => yv - dotQR (rsttModel S d1 fs t ly).params xrow)
        (rsttY1c d1 d2 fs t ly) (rsttX12 d1 d2 fs t) ∧
    rsttY1c d1 d2 fs t ly = logTr ly (targetVecR (rsttData12 d1 d2 (fs ++ [t])) t) ∧
    rsttRes2 S d1 d2 fs t ly =
      List.zipWith (fun yv xrow => yv - dotQR (rsttModel S d2 fs t ly).params xrow)
        (rsttY2c d1 d2 fs t ly) (rsttX12 d1 d2 fs t) ∧
    rsttY2c d1 d2 fs t ly = logTr ly (targetVecR
      (locMask (dropnaF d2 (fs ++ [t])) (rsttMask d1 d2 (fs ++ [t]))) t) := by
  refine ⟨rsttData12_eq_locMask d1 d2 (fs ++ [t]), ?_, ?_, ?_, ?_, rfl⟩
  · rw [rsttData12_eq_locMask]
    show (dropnaF d1 (fs ++ [t])).rows.filter
      (fun r => rsttMask d1 d2 (fs ++ [t]) r.label) = _
    apply List.filter_congr
    intro r hr
    show rsttMask d1 d2 (fs ++ [t]) r.label = _
    unfold rsttMask commonMask
    rw [show lookupRow (dropnaF d1 (fs ++ [t])) r.label = some r from
      find?_label_self h1 hr]
    cases lookupRow (dropnaF d2 (fs ++ [t])) r.label <;> rfl
  · unfold rsttRes1 listSub
    rw [List.zipWith_map_right]
  · rw [rsttData12_eq_locMask]
    rfl
  · unfold rsttRes2 listSub
    rw [List.zipWith_map_right]

theorem c1_amended_witness :
    rsttData12 cd1 cd2 (["x"] ++ ["y"]) =
      locMask (dropnaF cd1 (["x"] ++ ["y"])) (rsttMask cd1 cd2 (["x"] ++ ["y"])) ∧
    (rsttData12 cd1 cd2 (["x"] ++ ["y"])).rows =
      (dropnaF cd1 (["x"] ++ ["y"])).rows.filter (fun r =>
        match lookupRow (dropnaF cd2 (["x"] ++ ["y"])) r.label with
        | some r2 => (dropnaF cd2 (["x"] ++ ["y"])).rows.any (fun q => q.sys == r.sys) &&
            (dropnaF cd1 (["x"] ++ ["y"])).rows.any (fun q => q.sys == r2.sys)
        | none => false) ∧
    rsttRes1 olsSimple cd1 cd2 ["x"] "y" false =
      List.zipWith (fun yv xrow =>
          yv - dotQR (rsttModel olsSimple cd1 ["x"] "y" false).params xrow)
        (rsttY1c cd1 cd2 ["x"] "y" false) (rsttX12 cd1 cd2 ["x"] "y") ∧
    rsttY1c cd1 cd2 ["x"] "y" false =
      logTr false (targetVecR (rsttData12 cd1 cd2 (["x"] ++ ["y"])) "y") ∧
    rsttRes2 olsSimple cd1 cd2 ["x"] "y" false =
      List.zipWith (fun yv xrow =>
          yv - dotQR (rsttModel olsSimple cd2 ["x"] "y" false).params xrow)
        (rsttY2c cd1 cd2 ["x"] "y" false) (rsttX12 cd1 cd2 ["x"] "y") ∧
    rsttY2c cd1 cd2 ["x"] "y" false = logTr false (targetVecR
      (locMask (dropnaF cd2 (["x"] ++ ["y"])) (rsttMask cd1 cd2 (["x"] ++ ["y"]))) "y") :=
  c1_amended_common_subset olsSimple cd1 cd2 ["x"] "y" false (by decide)

end BioReg
